import Mathlib

/-!
Shallow embedding of the Arduino hardware backend of the j5 robotics HAL
(`j5/backends/hardware/j5/arduino.py`) and of the derived ultrasound sensor
component (`j5/components/derived/ultrasound.py`).

The backend keeps a table of digital pins (a Python dict keyed by pin
identifier, built for identifiers 2..13) and a serial connection.  We model
the dict as an association list, the serial side effects as a trace of wire
commands appended to the backend state, and each Python method as a function
returning `Except Err _`, where `Err` collects the exception classes the
source can raise.  Abstract wire reads (`_read_digital_pin`) are modelled by
an oracle function passed in as a parameter.
-/

/-- Modelled from the spec: the `GPIOPinMode` enumeration lives in
`j5/components/gpio_pin.py`, which is not part of the included sources.  The
spec glossary fixes the enumeration: digital-input, digital-input-pulled-up,
digital-output, analogue-input. -/
inductive GPIOPinMode where
  | DIGITAL_INPUT
  | DIGITAL_INPUT_PULLUP
  | DIGITAL_OUTPUT
  | ANALOGUE_INPUT
  deriving DecidableEq, Repr

/-- Exception classes raised by the modelled code.  `ValueError` covers the
spec's `InvalidState` and range errors, `NotSupportedByHardwareError` is the
spec's `UnsupportedOperation`, `KeyError` is Python's dict-miss exception,
`NotSupportedByComponentError` is raised by derived-component construction,
and `ExceptionErr` is the bare `Exception` raised by `distance()` in
pulse-only mode. -/
inductive Err where
  | NotSupportedByHardwareError
  | ValueError
  | KeyError
  | NotSupportedByComponentError
  | ExceptionErr
  deriving DecidableEq, Repr

/-- Decidable equality of `Except` results, so that concrete runs of the
modelled methods can be checked by evaluation. -/
instance instDecEqExcept {ε α : Type} [DecidableEq ε] [DecidableEq α] :
    DecidableEq (Except ε α)
  | Except.error a, Except.error b =>
      if h : a = b then isTrue (congrArg Except.error h)
      else isFalse (fun hc => h (Except.error.inj hc))
  | Except.error _, Except.ok _ => isFalse (fun hc => Except.noConfusion hc)
  | Except.ok _, Except.error _ => isFalse (fun hc => Except.noConfusion hc)
  | Except.ok a, Except.ok b =>
      if h : a = b then isTrue (congrArg Except.ok h)
      else isFalse (fun hc => h (Except.ok.inj hc))

/-- Wire commands a backend method can issue on the serial line, matching the
abstract methods `_update_digital_pin`, `_read_digital_pin` and
`_read_analogue_pin` of `ArduinoHardwareBackend`. -/
inductive WireCmd where
  | updateDigitalPin (identifier : Nat)
  | readDigitalPin (identifier : Nat)
  | readAnaloguePin (identifier : Nat)
  deriving DecidableEq, Repr

/-- `DigitalPinData`: contains data about a digital pin (mode and state),
from `arduino.py`. -/
structure DigitalPinData where
  mode : GPIOPinMode
  state : Bool
  deriving DecidableEq, Repr

/-- `FIRST_ANALOGUE_PIN = 14` from `arduino.py`. -/
def FIRST_ANALOGUE_PIN : Nat := 14

/-- The mutable state of an `ArduinoHardwareBackend`: the `_digital_pins`
dict (as an association list keyed by pin identifier) together with the trace
of wire commands issued so far. -/
structure Backend where
  pins : List (Nat × DigitalPinData)
  wire : List WireCmd
  deriving DecidableEq, Repr

/-- In-place mutation of the dict entry at key `i` (Python
`self._digital_pins[i].mode = ...` / `.state = ...`): every entry with key
`i` is replaced by `(i, pd)`, other entries are untouched. -/
def setPin (l : List (Nat × DigitalPinData)) (i : Nat) (pd : DigitalPinData) :
    List (Nat × DigitalPinData) :=
  l.map (fun e => if e.1 = i then (i, pd) else e)

/-- Python dict lookup `self._digital_pins[i]`: the value stored at key
`i`, or `none` when the key is absent (in which case the source raises
`KeyError`). -/
def lookupPin (i : Nat) : List (Nat × DigitalPinData) → Option DigitalPinData
  | [] => none
  | e :: t => if e.1 = i then some e.2 else lookupPin i t

/-- The set `digital_pin_modes` from `set_gpio_pin_mode`. -/
def digital_pin_modes : List GPIOPinMode :=
  [GPIOPinMode.DIGITAL_INPUT, GPIOPinMode.DIGITAL_INPUT_PULLUP,
   GPIOPinMode.DIGITAL_OUTPUT]

/-- `ArduinoHardwareBackend.set_gpio_pin_mode`: digital identifiers accept
the three digital modes (updating the stored mode and issuing a wire
update); analogue identifiers accept only `ANALOGUE_INPUT` as a no-op;
everything else raises `NotSupportedByHardwareError`.  A digital identifier
missing from the dict raises `KeyError` at the mutation. -/
def set_gpio_pin_mode (b : Backend) (identifier : Nat) (pin_mode : GPIOPinMode) :
    Except Err Backend :=
  if identifier < FIRST_ANALOGUE_PIN then
    if pin_mode ∈ digital_pin_modes then
      match lookupPin identifier b.pins with
      | none => Except.error Err.KeyError
      | some pd =>
          Except.ok
            { pins := setPin b.pins identifier { mode := pin_mode, state := pd.state },
              wire := b.wire ++ [WireCmd.updateDigitalPin identifier] }
    else Except.error Err.NotSupportedByHardwareError
  else
    if pin_mode = GPIOPinMode.ANALOGUE_INPUT then Except.ok b
    else Except.error Err.NotSupportedByHardwareError

/-- `ArduinoHardwareBackend.get_gpio_pin_mode`: stored mode for digital
identifiers (KeyError when absent from the dict), always `ANALOGUE_INPUT`
for analogue identifiers. -/
def get_gpio_pin_mode (b : Backend) (identifier : Nat) : Except Err GPIOPinMode :=
  if identifier < FIRST_ANALOGUE_PIN then
    match lookupPin identifier b.pins with
    | none => Except.error Err.KeyError
    | some pd => Except.ok pd.mode
  else Except.ok GPIOPinMode.ANALOGUE_INPUT

/-- `ArduinoHardwareBackend.write_gpio_pin_digital_state`: analogue range
raises `NotSupportedByHardwareError` first; then the dict lookup (KeyError
when absent); then the mode gate (`ValueError` unless `DIGITAL_OUTPUT`); on
success the stored state is updated and a wire update is issued. -/
def write_gpio_pin_digital_state (b : Backend) (identifier : Nat) (state : Bool) :
    Except Err Backend :=
  if identifier ≥ FIRST_ANALOGUE_PIN then
    Except.error Err.NotSupportedByHardwareError
  else
    match lookupPin identifier b.pins with
    | none => Except.error Err.KeyError
    | some pd =>
        if pd.mode ≠ GPIOPinMode.DIGITAL_OUTPUT then
          Except.error Err.ValueError
        else
          Except.ok
            { pins := setPin b.pins identifier { mode := pd.mode, state := state },
              wire := b.wire ++ [WireCmd.updateDigitalPin identifier] }

/-- `ArduinoHardwareBackend.get_gpio_pin_digital_state`: returns the last
written state from the dict, with the same analogue-range and dict-miss
errors, gated on mode `DIGITAL_OUTPUT`.  It performs no wire operation, so
the backend state is returned unchanged. -/
def get_gpio_pin_digital_state (b : Backend) (identifier : Nat) :
    Except Err (Bool × Backend) :=
  if identifier ≥ FIRST_ANALOGUE_PIN then
    Except.error Err.NotSupportedByHardwareError
  else
    match lookupPin identifier b.pins with
    | none => Except.error Err.KeyError
    | some pd =>
        if pd.mode ≠ GPIOPinMode.DIGITAL_OUTPUT then
          Except.error Err.ValueError
        else
          Except.ok (pd.state, b)

/-- `ArduinoHardwareBackend.read_gpio_pin_digital_state`: a live wire read,
gated on mode `DIGITAL_INPUT` or `DIGITAL_INPUT_PULLUP`; `readD` is the
oracle for the abstract `_read_digital_pin`, whose invocation is recorded on
the wire trace. -/
def read_gpio_pin_digital_state (readD : Nat → Bool) (b : Backend)
    (identifier : Nat) : Except Err (Bool × Backend) :=
  if identifier ≥ FIRST_ANALOGUE_PIN then
    Except.error Err.NotSupportedByHardwareError
  else
    match lookupPin identifier b.pins with
    | none => Except.error Err.KeyError
    | some pd =>
        if pd.mode = GPIOPinMode.DIGITAL_INPUT ∨
            pd.mode = GPIOPinMode.DIGITAL_INPUT_PULLUP then
          Except.ok (readD identifier,
            { b with wire := b.wire ++ [WireCmd.readDigitalPin identifier] })
        else
          Except.error Err.ValueError

/-- `ArduinoHardwareBackend.write_gpio_pin_dac_value`: unconditionally raises
`NotSupportedByHardwareError`. -/
def write_gpio_pin_dac_value {α : Type} (b : Backend) (identifier : Nat)
    (scaled_value : α) : Except Err Backend :=
  Except.error Err.NotSupportedByHardwareError

/-- `ArduinoHardwareBackend.write_gpio_pin_pwm_value`: unconditionally raises
`NotSupportedByHardwareError`. -/
def write_gpio_pin_pwm_value {α : Type} (b : Backend) (identifier : Nat)
    (duty_cycle : α) : Except Err Backend :=
  Except.error Err.NotSupportedByHardwareError

/-- `ArduinoHardwareBackend.get_led_state`: only LED 0 exists (range
`ValueError` otherwise) and it delegates to the stored digital state of
pin 13. -/
def get_led_state (b : Backend) (identifier : Nat) : Except Err (Bool × Backend) :=
  if identifier ≠ 0 then Except.error Err.ValueError
  else get_gpio_pin_digital_state b 13

/-- `ArduinoHardwareBackend.set_led_state`: only LED 0 exists (range
`ValueError` otherwise) and it delegates to writing the digital state of
pin 13. -/
def set_led_state (b : Backend) (identifier : Nat) (state : Bool) :
    Except Err Backend :=
  if identifier ≠ 0 then Except.error Err.ValueError
  else write_gpio_pin_digital_state b 13 state

/-- The `_digital_pins` dict as built in `__init__`: one entry per
identifier in `range(2, FIRST_ANALOGUE_PIN)`, each starting as
`DIGITAL_INPUT` with state `False`. -/
def initialDigitalPins : List (Nat × DigitalPinData) :=
  (List.range' 2 (FIRST_ANALOGUE_PIN - 2)).map
    (fun i => (i, { mode := GPIOPinMode.DIGITAL_INPUT, state := false }))

/-- The pin-related part of `ArduinoHardwareBackend.__init__`: build the
dict, then loop over its keys calling `set_gpio_pin_mode(pin, DIGITAL_INPUT)`
(the boot handshake and firmware-version check touch no pin state and are
elided). -/
def initBackend : Except Err Backend :=
  (initialDigitalPins.map Prod.fst).foldlM
    (fun b pin_number => set_gpio_pin_mode b pin_number GPIOPinMode.DIGITAL_INPUT)
    { pins := initialDigitalPins, wire := [] }

/-- The backend state right after a successful `__init__`: the initial dict,
plus one wire update per digital pin. -/
def B0 : Backend :=
  { pins := initialDigitalPins,
    wire := (List.range' 2 (FIRST_ANALOGUE_PIN - 2)).map WireCmd.updateDigitalPin }

/-- Component classes that may appear in a pin's `firmware_modes` set. -/
inductive ComponentClass where
  | UltrasoundSensorClass
  | ServoClass
  | GPIOPinClass
  deriving DecidableEq, Repr

/-- Modelled from the spec: `GPIOPin` (from `j5/components/gpio_pin.py`, not
part of the included sources) as consumed by `UltrasoundSensor.__init__`: a
pin identifier plus the set of firmware-capable component classes. -/
structure GPIOPin where
  identifier : Nat
  firmware_modes : List ComponentClass
  deriving DecidableEq, Repr

/-- The `UltrasoundInterface` backend contract from `ultrasound.py`:
`get_ultrasound_pulse` yields a pulse duration (microseconds) or `none` on
timeout, `get_ultrasound_distance` yields a distance in metres or `none`. -/
structure UltrasoundInterface where
  get_ultrasound_pulse : Nat → Nat → Option Int
  get_ultrasound_distance : Nat → Nat → Option Rat

/-- The fields stored by a constructed `UltrasoundSensor`. -/
structure UltrasoundSensor where
  gpio_trigger : GPIOPin
  gpio_echo : GPIOPin
  backend : UltrasoundInterface
  distance_mode : Bool

/-- `UltrasoundSensor.__init__`: raises `NotSupportedByComponentError` unless
the `UltrasoundSensor` class appears in both pins' `firmware_modes`; on
success stores the two pins, the backend and the distance flag. -/
def UltrasoundSensor.init (gpio_trigger gpio_echo : GPIOPin)
    (backend : UltrasoundInterface) (distance_mode : Bool) :
    Except Err UltrasoundSensor :=
  if ComponentClass.UltrasoundSensorClass ∉ gpio_trigger.firmware_modes ∨
      ComponentClass.UltrasoundSensorClass ∉ gpio_echo.firmware_modes then
    Except.error Err.NotSupportedByComponentError
  else
    Except.ok
      { gpio_trigger := gpio_trigger, gpio_echo := gpio_echo,
        backend := backend, distance_mode := distance_mode }

/-- `UltrasoundSensor.pulse`: delegates directly to the backend with the two
stored pin identifiers; no check of any kind, no possible exception. -/
def UltrasoundSensor.pulse (s : UltrasoundSensor) : Option Int :=
  s.backend.get_ultrasound_pulse s.gpio_trigger.identifier s.gpio_echo.identifier

/-- `UltrasoundSensor.distance`: raises a bare `Exception` when constructed
in pulse-only mode, otherwise delegates directly to the backend; no
capability check. -/
def UltrasoundSensor.distance (s : UltrasoundSensor) : Except Err (Option Rat) :=
  if ¬ s.distance_mode then Except.error Err.ExceptionErr
  else Except.ok
    (s.backend.get_ultrasound_distance s.gpio_trigger.identifier
      s.gpio_echo.identifier)

/-- Replacing a pin's `firmware_modes` by the empty set, used to state that
`pulse`/`distance` never consult firmware capabilities. -/
def stripCapabilities (s : UltrasoundSensor) : UltrasoundSensor :=
  { s with gpio_trigger := { s.gpio_trigger with firmware_modes := [] },
           gpio_echo := { s.gpio_echo with firmware_modes := [] } }

/-- A sample backend state used to instantiate theorems with hypotheses on
concrete inputs: pin 2 configured as output, pin 3 as input. -/
def bW : Backend :=
  { pins := [(2, { mode := GPIOPinMode.DIGITAL_OUTPUT, state := false }),
             (3, { mode := GPIOPinMode.DIGITAL_INPUT, state := false })],
    wire := [] }

/-- A trigger pin declaring ultrasound firmware capability. -/
def pinT : GPIOPin := { identifier := 3, firmware_modes := [ComponentClass.UltrasoundSensorClass] }

/-- An echo pin declaring ultrasound firmware capability. -/
def pinE : GPIOPin := { identifier := 4, firmware_modes := [ComponentClass.UltrasoundSensorClass] }

/-- A trivial ultrasound backend used to instantiate construction theorems. -/
def usIface0 : UltrasoundInterface :=
  { get_ultrasound_pulse := fun _ _ => none,
    get_ultrasound_distance := fun _ _ => none }

/-- Looking up the key just written by `setPin` returns the new record,
provided the key was present (the only situation in which the source calls
the mutation). -/
theorem lookup_setPin_self (l : List (Nat × DigitalPinData)) (i : Nat)
    (pd : DigitalPinData) (h : (lookupPin i l).isSome) :
    lookupPin i (setPin l i pd) = some pd := by
  induction l with
  | nil => simp [lookupPin] at h
  | cons e t ih =>
      by_cases he : e.1 = i
      · simp [setPin, lookupPin, he]
      · simp [setPin, lookupPin, he] at h ⊢
        simpa [setPin] using ih h

/-- C1: for every digital-range pin identifier (2..13) present in the pin
table, `write_gpio_pin_digital_state(id, value)` succeeds iff the stored
mode is `DIGITAL_OUTPUT`, in which case it updates the stored state to
`value` and issues the wire update; in any other stored mode it fails with
`ValueError`; and for every identifier in the analogue range (>= 14) it
fails with `NotSupportedByHardwareError` regardless of the pin table. -/
theorem arduino_write_digital_state_spec (b : Backend) (i : Nat) (v : Bool)
    (pd : DigitalPinData) :
    (2 ≤ i → i ≤ 13 → lookupPin i b.pins = some pd →
      (pd.mode = GPIOPinMode.DIGITAL_OUTPUT →
        write_gpio_pin_digital_state b i v =
          Except.ok { pins := setPin b.pins i { mode := pd.mode, state := v },
                      wire := b.wire ++ [WireCmd.updateDigitalPin i] }) ∧
      (pd.mode ≠ GPIOPinMode.DIGITAL_OUTPUT →
        write_gpio_pin_digital_state b i v = Except.error Err.ValueError)) ∧
    (FIRST_ANALOGUE_PIN ≤ i →
      write_gpio_pin_digital_state b i v =
        Except.error Err.NotSupportedByHardwareError) := by
  constructor
  · intro _ h13 hlk
    have hge : ¬ i ≥ FIRST_ANALOGUE_PIN := by
      simp only [FIRST_ANALOGUE_PIN]
      omega
    refine ⟨fun hmode => ?_, fun hmode => ?_⟩ <;>
      simp [write_gpio_pin_digital_state, hge, hlk, hmode]
  · intro h14
    simp [write_gpio_pin_digital_state, h14]

/-- Witness for C1: on a backend whose pin 2 is an output, a write to pin 2
succeeds and a write to the analogue pin 14 fails. -/
theorem arduino_write_digital_state_spec_witness :
    write_gpio_pin_digital_state bW 2 true =
      Except.ok { pins := setPin bW.pins 2 { mode := GPIOPinMode.DIGITAL_OUTPUT, state := true },
                  wire := bW.wire ++ [WireCmd.updateDigitalPin 2] } ∧
    write_gpio_pin_digital_state bW 14 true =
      Except.error Err.NotSupportedByHardwareError :=
  ⟨((arduino_write_digital_state_spec bW 2 true
        { mode := GPIOPinMode.DIGITAL_OUTPUT, state := false }).1
      (by decide) (by decide) (by decide)).1 rfl,
   (arduino_write_digital_state_spec bW 14 true
        { mode := GPIOPinMode.DIGITAL_OUTPUT, state := false }).2 (by decide)⟩

/-- C2: for every pin identifier in the analogue range (>= 14),
`set_gpio_pin_mode` raises `NotSupportedByHardwareError` for every mode other
than `ANALOGUE_INPUT`, and with `ANALOGUE_INPUT` returns successfully leaving
the whole backend state unchanged. -/
theorem arduino_set_mode_analogue_spec (b : Backend) (i : Nat) (m : GPIOPinMode)
    (hi : FIRST_ANALOGUE_PIN ≤ i) :
    (m ≠ GPIOPinMode.ANALOGUE_INPUT →
      set_gpio_pin_mode b i m = Except.error Err.NotSupportedByHardwareError) ∧
    set_gpio_pin_mode b i GPIOPinMode.ANALOGUE_INPUT = Except.ok b := by
  have h : ¬ i < FIRST_ANALOGUE_PIN := Nat.not_lt.mpr hi
  exact ⟨fun hm => by simp [set_gpio_pin_mode, h, hm],
         by simp [set_gpio_pin_mode, h]⟩

/-- Witness for C2: on pin 14, setting a digital mode fails and setting
analogue input is a no-op. -/
theorem arduino_set_mode_analogue_spec_witness :
    set_gpio_pin_mode bW 14 GPIOPinMode.DIGITAL_OUTPUT =
      Except.error Err.NotSupportedByHardwareError ∧
    set_gpio_pin_mode bW 14 GPIOPinMode.ANALOGUE_INPUT = Except.ok bW :=
  ⟨(arduino_set_mode_analogue_spec bW 14 GPIOPinMode.DIGITAL_OUTPUT
      (by decide)).1 (by decide),
   (arduino_set_mode_analogue_spec bW 14 GPIOPinMode.DIGITAL_OUTPUT
      (by decide)).2⟩

/-- C3: for every digital pin identifier p in 2..13 present in the pin
table, `set_gpio_pin_mode(p, DIGITAL_OUTPUT)` followed by
`write_gpio_pin_digital_state(p, true)` makes `get_gpio_pin_digital_state(p)`
return `true`, and that get leaves the backend (including its wire trace)
unchanged: it only consults the stored pin table. -/
theorem arduino_digital_round_trip (b : Backend) (p : Nat)
    (h2 : 2 ≤ p) (h13 : p ≤ 13) (hmem : (lookupPin p b.pins).isSome) :
    ∃ b1 b2,
      set_gpio_pin_mode b p GPIOPinMode.DIGITAL_OUTPUT = Except.ok b1 ∧
      write_gpio_pin_digital_state b1 p true = Except.ok b2 ∧
      get_gpio_pin_digital_state b2 p = Except.ok (true, b2) := by
  obtain ⟨pd, hlk⟩ := Option.isSome_iff_exists.mp hmem
  have hlt : p < FIRST_ANALOGUE_PIN := by
    simp only [FIRST_ANALOGUE_PIN]
    omega
  have hge : ¬ p ≥ FIRST_ANALOGUE_PIN := Nat.not_le.mpr hlt
  have hlk1 : lookupPin p
      (setPin b.pins p { mode := GPIOPinMode.DIGITAL_OUTPUT, state := pd.state }) =
      some { mode := GPIOPinMode.DIGITAL_OUTPUT, state := pd.state } :=
    lookup_setPin_self b.pins p _ hmem
  have hlk2 : lookupPin p
      (setPin (setPin b.pins p { mode := GPIOPinMode.DIGITAL_OUTPUT, state := pd.state })
        p { mode := GPIOPinMode.DIGITAL_OUTPUT, state := true }) =
      some { mode := GPIOPinMode.DIGITAL_OUTPUT, state := true } :=
    lookup_setPin_self _ p _ (by rw [hlk1]; rfl)
  refine ⟨{ pins := setPin b.pins p { mode := GPIOPinMode.DIGITAL_OUTPUT, state := pd.state },
            wire := b.wire ++ [WireCmd.updateDigitalPin p] },
          { pins := setPin
                (setPin b.pins p { mode := GPIOPinMode.DIGITAL_OUTPUT, state := pd.state })
                p { mode := GPIOPinMode.DIGITAL_OUTPUT, state := true },
            wire := (b.wire ++ [WireCmd.updateDigitalPin p]) ++
              [WireCmd.updateDigitalPin p] },
          ?_, ?_, ?_⟩
  · simp [set_gpio_pin_mode, hlt, hlk, digital_pin_modes]
  · simp [write_gpio_pin_digital_state, hge, hlk1]
  · simp [get_gpio_pin_digital_state, hge, hlk2]

/-- Witness for C3: the round trip through pin 3 of the sample backend. -/
theorem arduino_digital_round_trip_witness :
    ∃ b1 b2,
      set_gpio_pin_mode bW 3 GPIOPinMode.DIGITAL_OUTPUT = Except.ok b1 ∧
      write_gpio_pin_digital_state b1 3 true = Except.ok b2 ∧
      get_gpio_pin_digital_state b2 3 = Except.ok (true, b2) :=
  arduino_digital_round_trip bW 3 (by decide) (by decide) (by decide)

/-- C4: for every digital pin identifier in 2..13 present in the table,
`get_gpio_pin_digital_state` succeeds exactly when the stored mode is
`DIGITAL_OUTPUT` (and then reads only the table, leaving the backend
unchanged), `read_gpio_pin_digital_state` succeeds exactly when the stored
mode is `DIGITAL_INPUT` or `DIGITAL_INPUT_PULLUP` (and then records exactly
one wire read); in every other stored mode each fails with `ValueError`. -/
theorem arduino_get_read_mode_gates (b : Backend) (i : Nat) (pd : DigitalPinData)
    (readD : Nat → Bool) (h2 : 2 ≤ i) (h13 : i ≤ 13)
    (hlk : lookupPin i b.pins = some pd) :
    (pd.mode = GPIOPinMode.DIGITAL_OUTPUT →
      get_gpio_pin_digital_state b i = Except.ok (pd.state, b)) ∧
    (pd.mode ≠ GPIOPinMode.DIGITAL_OUTPUT →
      get_gpio_pin_digital_state b i = Except.error Err.ValueError) ∧
    ((pd.mode = GPIOPinMode.DIGITAL_INPUT ∨
        pd.mode = GPIOPinMode.DIGITAL_INPUT_PULLUP) →
      read_gpio_pin_digital_state readD b i =
        Except.ok (readD i, { b with wire := b.wire ++ [WireCmd.readDigitalPin i] })) ∧
    (¬ (pd.mode = GPIOPinMode.DIGITAL_INPUT ∨
        pd.mode = GPIOPinMode.DIGITAL_INPUT_PULLUP) →
      read_gpio_pin_digital_state readD b i = Except.error Err.ValueError) := by
  have hge : ¬ i ≥ FIRST_ANALOGUE_PIN := by
    simp only [FIRST_ANALOGUE_PIN]
    omega
  refine ⟨fun h => ?_, fun h => ?_, fun h => ?_, fun h => ?_⟩ <;>
    simp [get_gpio_pin_digital_state, read_gpio_pin_digital_state, hge, hlk, h]

/-- Witness for C4: on the sample backend, the stored-state get succeeds on
output pin 2 and the live read succeeds on input pin 3. -/
theorem arduino_get_read_mode_gates_witness :
    get_gpio_pin_digital_state bW 2 = Except.ok (false, bW) ∧
    read_gpio_pin_digital_state (fun _ => true) bW 3 =
      Except.ok (true, { bW with wire := bW.wire ++ [WireCmd.readDigitalPin 3] }) :=
  ⟨(arduino_get_read_mode_gates bW 2 { mode := GPIOPinMode.DIGITAL_OUTPUT, state := false }
      (fun _ => true) (by decide) (by decide) (by decide)).1 rfl,
   (arduino_get_read_mode_gates bW 3 { mode := GPIOPinMode.DIGITAL_INPUT, state := false }
      (fun _ => true) (by decide) (by decide) (by decide)).2.2.1 (Or.inl rfl)⟩

/-- C5: construction explicitly sets every digital pin (2..13) to
`DIGITAL_INPUT`, issuing one wire command per pin, so after `__init__`
returns the backend is `B0`, whose wire trace holds exactly one update per
digital pin and whose `get_gpio_pin_mode` is `DIGITAL_INPUT` on all of
2..13. -/
theorem arduino_init_sets_inputs :
    initBackend = Except.ok B0 ∧
    B0.wire = (List.range' 2 (FIRST_ANALOGUE_PIN - 2)).map WireCmd.updateDigitalPin ∧
    ∀ p < FIRST_ANALOGUE_PIN, 2 ≤ p →
      get_gpio_pin_mode B0 p = Except.ok GPIOPinMode.DIGITAL_INPUT :=
  ⟨by decide, rfl, by decide⟩

/-- Witness for C5: pin 13 is in input mode after construction. -/
theorem arduino_init_sets_inputs_witness :
    get_gpio_pin_mode B0 13 = Except.ok GPIOPinMode.DIGITAL_INPUT :=
  arduino_init_sets_inputs.2.2 13 (by decide) (by decide)

/-- C6: `set_led_state(0, s)` is exactly a digital write to pin 13 and
`get_led_state(0)` is exactly the stored digital state of pin 13; every
other LED identifier fails with `ValueError` for both operations, whatever
the pin state. -/
theorem arduino_led_pin13 (b : Backend) (s : Bool) (i : Nat) :
    set_led_state b 0 s = write_gpio_pin_digital_state b 13 s ∧
    get_led_state b 0 = get_gpio_pin_digital_state b 13 ∧
    (i ≠ 0 →
      set_led_state b i s = Except.error Err.ValueError ∧
      get_led_state b i = Except.error Err.ValueError) := by
  refine ⟨by simp [set_led_state], by simp [get_led_state],
    fun hi => ⟨by simp [set_led_state, hi], by simp [get_led_state, hi]⟩⟩

/-- Witness for C6: LED identifier 1 fails on the sample backend. -/
theorem arduino_led_pin13_witness :
    set_led_state bW 1 true = Except.error Err.ValueError ∧
    get_led_state bW 1 = Except.error Err.ValueError :=
  (arduino_led_pin13 bW true 1).2.2 (by decide)

/-- C7: pin identifiers 0 and 1 are below the analogue threshold but absent
from the table built for 2..13, so on the post-construction backend every
digital-mode set, digital write, stored-state get, mode get and live read
raises `KeyError` from the dict lookup rather than a documented error. -/
theorem arduino_low_pins_keyerror (i : Nat) (hi : i = 0 ∨ i = 1)
    (m : GPIOPinMode) (hm : m ∈ digital_pin_modes) (readD : Nat → Bool)
    (v : Bool) :
    set_gpio_pin_mode B0 i m = Except.error Err.KeyError ∧
    write_gpio_pin_digital_state B0 i v = Except.error Err.KeyError ∧
    get_gpio_pin_digital_state B0 i = Except.error Err.KeyError ∧
    get_gpio_pin_mode B0 i = Except.error Err.KeyError ∧
    read_gpio_pin_digital_state readD B0 i = Except.error Err.KeyError := by
  have hm' : m = GPIOPinMode.DIGITAL_INPUT ∨ m = GPIOPinMode.DIGITAL_INPUT_PULLUP ∨
      m = GPIOPinMode.DIGITAL_OUTPUT := by
    simpa [digital_pin_modes] using hm
  rcases hi with rfl | rfl <;> rcases hm' with rfl | rfl | rfl <;>
    exact ⟨rfl, rfl, rfl, rfl, rfl⟩

/-- Witness for C7: pin 0 with mode `DIGITAL_OUTPUT` on the
post-construction backend. -/
theorem arduino_low_pins_keyerror_witness :
    set_gpio_pin_mode B0 0 GPIOPinMode.DIGITAL_OUTPUT = Except.error Err.KeyError ∧
    write_gpio_pin_digital_state B0 0 false = Except.error Err.KeyError ∧
    get_gpio_pin_digital_state B0 0 = Except.error Err.KeyError ∧
    get_gpio_pin_mode B0 0 = Except.error Err.KeyError ∧
    read_gpio_pin_digital_state (fun _ => false) B0 0 = Except.error Err.KeyError :=
  arduino_low_pins_keyerror 0 (Or.inl rfl) GPIOPinMode.DIGITAL_OUTPUT
    (by decide) (fun _ => false) false

/-- C8: `UltrasoundSensor` construction succeeds, storing the two pins, the
backend and the distance flag, precisely when both pins declare the
ultrasound class among their firmware modes, and otherwise raises
`NotSupportedByComponentError`; `pulse` and `distance` never consult
firmware capabilities (stripping both pins' capability sets changes
neither). -/
theorem ultrasound_construction_capability (t e : GPIOPin)
    (bk : UltrasoundInterface) (dm : Bool) :
    (ComponentClass.UltrasoundSensorClass ∈ t.firmware_modes ∧
        ComponentClass.UltrasoundSensorClass ∈ e.firmware_modes →
      UltrasoundSensor.init t e bk dm =
        Except.ok { gpio_trigger := t, gpio_echo := e, backend := bk,
                    distance_mode := dm }) ∧
    (ComponentClass.UltrasoundSensorClass ∉ t.firmware_modes ∨
        ComponentClass.UltrasoundSensorClass ∉ e.firmware_modes →
      UltrasoundSensor.init t e bk dm =
        Except.error Err.NotSupportedByComponentError) ∧
    (∀ s : UltrasoundSensor,
      UltrasoundSensor.pulse (stripCapabilities s) = UltrasoundSensor.pulse s ∧
      UltrasoundSensor.distance (stripCapabilities s) =
        UltrasoundSensor.distance s) := by
  refine ⟨fun h => ?_, fun h => ?_, fun s => ⟨rfl, rfl⟩⟩
  · simp [UltrasoundSensor.init, h.1, h.2]
  · rcases h with h | h <;> simp [UltrasoundSensor.init, h]

/-- Witness for C8: construction succeeds on two capable pins. -/
theorem ultrasound_construction_capability_witness :
    UltrasoundSensor.init pinT pinE usIface0 true =
      Except.ok { gpio_trigger := pinT, gpio_echo := pinE, backend := usIface0,
                  distance_mode := true } :=
  (ultrasound_construction_capability pinT pinE usIface0 true).1
    ⟨by decide, by decide⟩

/-- C9: for every pin identifier, backend state and input value, both
`write_gpio_pin_dac_value` and `write_gpio_pin_pwm_value` raise
`NotSupportedByHardwareError` without touching the backend state. -/
theorem arduino_dac_pwm_unsupported {α β : Type} (b b' : Backend) (i j : Nat)
    (v : α) (w : β) :
    write_gpio_pin_dac_value b i v = Except.error Err.NotSupportedByHardwareError ∧
    write_gpio_pin_pwm_value b' j w = Except.error Err.NotSupportedByHardwareError :=
  ⟨rfl, rfl⟩

/-- C10: immediately after construction, `get_led_state(0)` raises
`ValueError` (pin 13 is still `DIGITAL_INPUT`), and it succeeds once pin 13
has been switched to `DIGITAL_OUTPUT`. -/
theorem arduino_led_state_after_init :
    get_led_state B0 0 = Except.error Err.ValueError ∧
    ∃ b1, set_gpio_pin_mode B0 13 GPIOPinMode.DIGITAL_OUTPUT = Except.ok b1 ∧
      get_led_state b1 0 = Except.ok (false, b1) :=
  ⟨by decide,
   { pins := setPin B0.pins 13 { mode := GPIOPinMode.DIGITAL_OUTPUT, state := false },
     wire := B0.wire ++ [WireCmd.updateDigitalPin 13] },
   by decide, by decide⟩
